import Mathlib

/-!
Shallow embedding of the core of the `web-api-cli` repository:

* the configured request client (`src/api.js`): an axios instance with a
  base URL, a 30000 ms timeout, a default `Content-Type: application/json`
  header, a request interceptor that injects `Authorization: Bearer <key>`
  when `process.env.API_KEY` is truthy, a response interceptor that logs
  every error (`console.error('API Error:', status, data || message)`) and
  re-throws it, and the request templates `get/post/put/patch/del` that
  return `response.data`;

* the interactive request handler (`src/cli/handlers/request.js`), which
  dispatches on the chosen method and catches any error, printing
  `Request failed: <message>`;

* the local listener lifecycle controller
  (`src/cli/handlers/server.js` together with `src/server.js`): a
  module-level `server` cell, `handleStartServer` / `handleStopServer` /
  `cleanup` / `isServerRunning`, where `startServer` resolves with the
  handle only once `app.listen` succeeds (on a bind failure the promise
  never resolves) and `stopServer` resolves once `server.close` completes
  (ignoring any error passed to the close callback).

Promises are embedded as explicit values: a promise that fulfils with `a`
or rejects with an error `e` is `Except e a`; a promise that can never
settle is represented by an explicit outcome constructor. Side effects
(console logging, socket operations) are threaded as explicit event lists.
-/

namespace WebApiCli

/-- JSON values as decoded by the transport layer (axios parses response
bodies into plain JS values). -/
inductive Json where
  | null : Json
  | bool (b : Bool) : Json
  | num (n : Int) : Json
  | str (s : String) : Json
  | arr (elems : List Json) : Json
  | obj (fields : List (String × Json)) : Json

/-- Field lookup on a JSON object, `none` on any other shape. -/
def Json.getField : Json → String → Option Json
  | .obj fields, key => fields.lookup key
  | _, _ => none

/-- JavaScript truthiness of a decoded JSON value: `null`, `false`, `0`
and the empty string are falsy, every array or object is truthy. -/
def jsTruthy : Json → Bool
  | .null => false
  | .bool b => b
  | .num n => n != 0
  | .str s => s != ""
  | .arr _ => true
  | .obj _ => true

/-- The environment variables the client reads (`process.env`): a missing
variable is `none`, a set variable is `some` of its string value. -/
structure Env where
  apiBaseUrl : Option String
  apiKey : Option String
deriving DecidableEq

/-- JavaScript truthiness of an environment variable: `undefined` and the
empty string are falsy (this is the guard `if (process.env.API_KEY)` in the
request interceptor of `src/api.js`). -/
def envTruthy : Option String → Bool
  | none => false
  | some s => s != ""

/-- HTTP methods offered by the request templates of `src/api.js`. -/
inductive Method where
  | get | post | put | patch | delete
deriving DecidableEq

/-- Header lookup (header names are unique in an axios config object). -/
def getHeader (headers : List (String × String)) (key : String) :
    Option String :=
  headers.lookup key

/-- Header assignment, as in `config.headers.Authorization = ...`:
replaces any existing entry for the key. -/
def setHeader (headers : List (String × String)) (key value : String) :
    List (String × String) :=
  headers.filter (fun p => p.1 != key) ++ [(key, value)]

/-- The fully-built axios request config: the instance keeps `baseURL`
and the per-call `url` as separate fields (resolution happens inside the
transport, which is outside this repository's code). -/
structure WireRequest where
  method : Method
  baseURL : Option String
  url : String
  headers : List (String × String)
  data : Option Json
  params : List (String × String)

/-- Instance-level default headers from `axios.create` in `src/api.js`. -/
def defaultHeaders : List (String × String) :=
  [("Content-Type", "application/json")]

/-- The request interceptor of `src/api.js`: when `process.env.API_KEY`
is truthy it sets `config.headers.Authorization = 'Bearer ' + API_KEY`,
otherwise it returns the config unchanged. -/
def authInterceptor (env : Env) (config : WireRequest) : WireRequest :=
  if envTruthy env.apiKey then
    { config with
        headers := setHeader config.headers "Authorization"
          ("Bearer " ++ env.apiKey.getD "") }
  else
    config

/-- The request config assembled by the configured instance for one call,
before interceptors run. -/
def mkConfig (env : Env) (m : Method) (url : String) (data : Option Json)
    (params : List (String × String)) : WireRequest :=
  { method := m
    baseURL := env.apiBaseUrl
    url := url
    headers := defaultHeaders
    data := data
    params := params }

/-- The outbound wire request produced for one call through the
configured instance: instance defaults plus the request interceptor. -/
def buildRequest (env : Env) (m : Method) (url : String)
    (data : Option Json) (params : List (String × String)) : WireRequest :=
  authInterceptor env (mkConfig env m url data params)

/-- A successful transport-level response. -/
structure AxiosResponse where
  status : Nat
  data : Json

/-- The error value axios rejects with: `error.response?.status` and
`error.response?.data` are present exactly when a response was received
(non-2xx status); `message` is always present. -/
structure AxiosError where
  status : Option Nat
  data : Option Json
  message : String

/-- What the network does with one request: respond with a status and a
decoded body, fail at the transport level, or exceed the 30000 ms
timeout. -/
inductive Transport where
  | respond (status : Nat) (data : Json)
  | netError (message : String)
  | timedOut

/-- The default axios `validateStatus`: a response settles the promise
successfully iff `200 <= status < 300`. -/
def validateStatus (status : Nat) : Bool :=
  200 ≤ status && status < 300

/-- The error axios rejects with when a response arrives whose status
fails `validateStatus`: it carries the response status and decoded body. -/
def httpFailure (status : Nat) (body : Json) : AxiosError :=
  { status := some status, data := some body,
    message := "Request failed with status code " ++ toString status }

/-- How the axios adapter settles the request promise for a given
transport outcome: a 2xx response fulfils; a non-2xx response rejects with
an error carrying the response; a transport failure or timeout rejects
with an error carrying no response. -/
def dispatch : Transport → Except AxiosError AxiosResponse
  | .respond s d =>
      if validateStatus s then
        .ok { status := s, data := d }
      else
        .error (httpFailure s d)
  | .netError m => .error { status := none, data := none, message := m }
  | .timedOut =>
      .error { status := none, data := none,
               message := "timeout of 30000ms exceeded" }

/-- The second argument of `console.error('API Error:', ...)`: the value
of the JS expression `error.response?.data || error.message`. -/
inductive LogVal where
  | jsonVal (j : Json)
  | strVal (s : String)

/-- Evaluates `error.response?.data || error.message`. -/
def logPayload (e : AxiosError) : LogVal :=
  match e.data with
  | some d => if jsTruthy d then .jsonVal d else .strVal e.message
  | none => .strVal e.message

/-- One `console.error('API Error:', status, data || message)` line
written by the response interceptor. -/
structure LogEntry where
  status : Option Nat
  payload : LogVal

/-- The response interceptor of `src/api.js`: passes successful responses
through untouched; on an error it logs `API Error: <status> <data or
message>` and then `throw error` — the rejection is re-raised unchanged. -/
def responseInterceptor (r : Except AxiosError AxiosResponse) :
    List LogEntry × Except AxiosError AxiosResponse :=
  match r with
  | .ok resp => ([], .ok resp)
  | .error e => ([{ status := e.status, payload := logPayload e }], .error e)

/-- One call through the configured instance: build the wire request,
settle it against the transport, run the response interceptor, and on
success return `response.data` (the request templates all end in
`return response.data`). The promise returned to the caller is the
`Except`: `.ok` is a fulfilled promise, `.error` a rejection. The log
lines written along the way are returned alongside. -/
def apiRequest (env : Env) (transport : WireRequest → Transport)
    (m : Method) (url : String) (data : Option Json)
    (params : List (String × String)) :
    List LogEntry × Except AxiosError Json :=
  let req := buildRequest env m url data params
  match responseInterceptor (dispatch (transport req)) with
  | (logs, .ok resp) => (logs, .ok resp.data)
  | (logs, .error e) => (logs, .error e)

namespace Api

/-- The template `get(endpoint, params = {})` of `src/api.js`. -/
def get (env : Env) (transport : WireRequest → Transport)
    (endpoint : String) (params : List (String × String)) :
    List LogEntry × Except AxiosError Json :=
  apiRequest env transport .get endpoint none params

/-- The template `post(endpoint, data = {})` of `src/api.js`. -/
def post (env : Env) (transport : WireRequest → Transport)
    (endpoint : String) (data : Json) :
    List LogEntry × Except AxiosError Json :=
  apiRequest env transport .post endpoint (some data) []

/-- The template `put(endpoint, data = {})` of `src/api.js`. -/
def put (env : Env) (transport : WireRequest → Transport)
    (endpoint : String) (data : Json) :
    List LogEntry × Except AxiosError Json :=
  apiRequest env transport .put endpoint (some data) []

/-- The template `patch(endpoint, data = {})` of `src/api.js`. -/
def patch (env : Env) (transport : WireRequest → Transport)
    (endpoint : String) (data : Json) :
    List LogEntry × Except AxiosError Json :=
  apiRequest env transport .patch endpoint (some data) []

/-- The template `del(endpoint)` of `src/api.js`. -/
def del (env : Env) (transport : WireRequest → Transport)
    (endpoint : String) :
    List LogEntry × Except AxiosError Json :=
  apiRequest env transport .delete endpoint none []

end Api

/-- What the interactive handler prints at the end of one request flow:
either the JSON response, or `Request failed: <message>` from its catch
block. -/
inductive CliOutcome where
  | success (result : Json)
  | failed (message : String)

/-- The request flow of `src/cli/handlers/request.js` after the prompts:
dispatch on the method, await the template, print the response; any
rejection is caught and reported as `Request failed: <error.message>` —
the handler itself never re-raises, so the flow is a total function. -/
def makeRequest (env : Env) (transport : WireRequest → Transport)
    (m : Method) (endpoint : String) (body : Json) :
    List LogEntry × CliOutcome :=
  let r :=
    match m with
    | .get => Api.get env transport endpoint []
    | .post => Api.post env transport endpoint body
    | .put => Api.put env transport endpoint body
    | .patch => Api.patch env transport endpoint body
    | .delete => Api.del env transport endpoint
  match r with
  | (logs, .ok d) => (logs, .success d)
  | (logs, .error e) => (logs, .failed e.message)

/-! Listener lifecycle controller: `src/cli/handlers/server.js` keeps a
module-level cell `let server = null` holding the handle returned by
`startServer()` from `src/server.js`. Handles are modelled by numeric
ids; the world around the controller records which listener sockets are
currently bound and whether another process already occupies the
configured port. Console logs and socket operations are recorded as an
event trace in chronological order. -/

/-- Observable events of the controller: socket operations and the
console messages of `src/cli/handlers/server.js` and `src/server.js`. -/
inductive Event where
  | bind (id : Nat)
  | bindFailed
  | close (id : Nat)
  | logAlreadyRunning
  | logNotRunning
deriving DecidableEq

/-- The controller cell plus its surrounding world: `server` is the
module-level variable of `src/cli/handlers/server.js` (a handle id when
set); `nextId` numbers the listener instances `app.listen` creates;
`bound` lists the ids of sockets currently bound on the configured port;
`portBusy` says some other process holds the port; `events` is the
chronological trace. -/
structure Sys where
  server : Option Nat
  nextId : Nat
  bound : List Nat
  portBusy : Bool
  events : List Event
deriving DecidableEq

/-- Process start: the cell is `null`, no listener of ours is bound, no
events yet. -/
def initSys (portBusy : Bool) : Sys :=
  { server := none, nextId := 0, bound := [], portBusy := portBusy,
    events := [] }

/-- The function `startServer()` of `src/server.js`: `app.listen(PORT,
cb)` — the returned promise resolves with the server handle only from the
listening callback. When the bind fails (port occupied by another process
or by a still-bound listener) the callback never fires and there is no
error handler, so the promise never resolves: this is modelled by the
result `none`. -/
def startServer (s : Sys) : Sys × Option Nat :=
  if s.portBusy || !s.bound.isEmpty then
    ({ s with events := s.events ++ [.bindFailed] }, none)
  else
    ({ s with
        nextId := s.nextId + 1
        bound := s.bound ++ [s.nextId]
        events := s.events ++ [.bind s.nextId] }, some s.nextId)

/-- The function `stopServer(server)` of `src/server.js`: `server.close(cb)`
and resolve from the callback. Closing releases the socket if it was
bound; closing an already-closed handle invokes the callback with an
error that the code ignores, so the promise still resolves and nothing is
thrown. Either way a close operation on the handle is performed. -/
def stopServer (s : Sys) (h : Nat) : Sys :=
  { s with bound := s.bound.erase h, events := s.events ++ [.close h] }

/-- How one `handleStartServer()` call ends: normal return after binding,
normal return after the `Server is already running` log, or — on a bind
failure — never: the awaited promise does not settle (and the unhandled
`error` event aborts the process), so no assignment to the cell and no
return to the caller happen. -/
inductive StartOutcome where
  | started
  | alreadyRunning
  | neverReturns
deriving DecidableEq

/-- How one `handleStopServer()` call ends. -/
inductive StopOutcome where
  | stopped
  | notRunning
deriving DecidableEq

/-- The function `handleStartServer()` of `src/cli/handlers/server.js`:
if the cell is set, log `Server is already running` and return; otherwise
`server = await startServer()`. -/
def handleStartServer (s : Sys) : Sys × StartOutcome :=
  match s.server with
  | some _ =>
      ({ s with events := s.events ++ [.logAlreadyRunning] },
       .alreadyRunning)
  | none =>
      match startServer s with
      | (s1, some h) => ({ s1 with server := some h }, .started)
      | (s1, none) => (s1, .neverReturns)

/-- The function `handleStopServer()` of `src/cli/handlers/server.js`:
if the cell is unset, log `Server is not running` and return; otherwise
`await stopServer(server); server = null`. -/
def handleStopServer (s : Sys) : Sys × StopOutcome :=
  match s.server with
  | none =>
      ({ s with events := s.events ++ [.logNotRunning] }, .notRunning)
  | some h => ({ stopServer s h with server := none }, .stopped)

/-- The function `cleanup()` of `src/cli/handlers/server.js`: if the cell
is set, `await stopServer(server)` — and nothing else: the cell is left
untouched, exactly as in the source. -/
def cleanup (s : Sys) : Sys :=
  match s.server with
  | none => s
  | some h => stopServer s h

/-- The function `isServerRunning()` of `src/cli/handlers/server.js`:
`server !== null`. -/
def isServerRunning (s : Sys) : Bool :=
  s.server.isSome

/-- The three operations a user or the shutdown path can issue on the
controller. -/
inductive Op where
  | start
  | stop
  | clean
deriving DecidableEq

/-- State change effected by one operation (outcome signals dropped). -/
def step (s : Sys) : Op → Sys
  | .start => (handleStartServer s).1
  | .stop => (handleStopServer s).1
  | .clean => cleanup s

/-- Runs a sequence of operations from a state. -/
def run (s : Sys) (ops : List Op) : Sys :=
  ops.foldl step s

/-- Controller invariant: at most one listener socket is bound, and every
bound socket id is the one stored in the cell. -/
def Inv (s : Sys) : Prop :=
  s.bound.length ≤ 1 ∧ ∀ h ∈ s.bound, s.server = some h

/-- Whether a promise fulfilled (delivered a value by normal return to
the awaiting caller) as opposed to rejecting (raising to the caller). -/
def fulfilled {α : Type} : Except AxiosError α → Bool
  | .ok _ => true
  | .error _ => false

/-! Helper lemmas shared by the claim theorems. -/

/-- Looking up the Authorization header after the interceptor set it. -/
theorem getHeader_setHeader_auth (v : String) :
    getHeader (setHeader defaultHeaders "Authorization" v) "Authorization"
      = some v := rfl

/-- the instance default headers carry no Authorization entry. -/
theorem getHeader_defaultHeaders_auth :
    getHeader defaultHeaders "Authorization" = none := rfl

/-- a truthy API key read from the environment. -/
theorem envTruthy_some {k : String} (hne : k ≠ "") :
    envTruthy (some k) = true :=
  bne_iff_ne.mpr hne

/-- The invariant holds at process start. -/
theorem inv_initSys (b : Bool) : Inv (initSys b) := by
  refine ⟨by simp [initSys], ?_⟩
  intro h hh
  simp [initSys] at hh

/-- When the cell is unset, no listener of ours is bound. -/
theorem inv_bound_nil {s : Sys} (hs : Inv s) (hn : s.server = none) :
    s.bound = [] := by
  cases hb : s.bound with
  | nil => rfl
  | cons x xs =>
    have := hs.2 x (by simp [hb])
    rw [hn] at this
    cases this

/-- When the cell holds a handle, the bound set is empty or exactly that
handle. -/
theorem bound_cases {s : Sys} (hs : Inv s) {h : Nat}
    (hsrv : s.server = some h) : s.bound = [] ∨ s.bound = [h] := by
  obtain ⟨hlen, hmem⟩ := hs
  cases hb : s.bound with
  | nil => exact Or.inl rfl
  | cons x xs =>
    have hx := hmem x (by simp [hb])
    rw [hsrv] at hx
    have hxh : x = h := by injection hx with hx; exact hx.symm
    cases hxs : xs with
    | nil => exact Or.inr (by rw [hxh])
    | cons y ys =>
      exfalso
      rw [hb, hxs] at hlen
      simp at hlen

/-- Every operation preserves the invariant. -/
theorem inv_step (s : Sys) (op : Op) (hs : Inv s) : Inv (step s op) := by
  obtain ⟨hlen, hmem⟩ := hs
  cases op with
  | start =>
    show Inv (handleStartServer s).1
    cases hsrv : s.server with
    | some h =>
      simp only [handleStartServer, hsrv]
      exact ⟨hlen, fun x hx => by rw [← hsrv]; exact hmem x hx⟩
    | none =>
      have hb : s.bound = [] := inv_bound_nil ⟨hlen, hmem⟩ hsrv
      simp only [handleStartServer, hsrv, startServer, hb]
      cases hpb : s.portBusy with
      | true =>
        refine ⟨by simp [hb], ?_⟩
        intro h hh
        simp [hb] at hh
      | false =>
        refine ⟨by simp, ?_⟩
        intro h hh
        simp at hh
        simp [hh]
  | stop =>
    show Inv (handleStopServer s).1
    cases hsrv : s.server with
    | none =>
      simp only [handleStopServer, hsrv]
      refine ⟨hlen, fun x hx => ?_⟩
      rw [← hsrv]
      exact hmem x hx
    | some h =>
      rcases bound_cases ⟨hlen, hmem⟩ hsrv with hb | hb <;>
        · simp only [handleStopServer, hsrv, stopServer]
          refine ⟨by simp [hb], ?_⟩
          intro x hx
          simp [hb] at hx
  | clean =>
    show Inv (cleanup s)
    cases hsrv : s.server with
    | none => simpa only [cleanup, hsrv] using ⟨hlen, hmem⟩
    | some h =>
      rcases bound_cases ⟨hlen, hmem⟩ hsrv with hb | hb <;>
        · simp only [cleanup, hsrv, stopServer]
          refine ⟨by simp [hb], ?_⟩
          intro x hx
          simp [hb] at hx

/-- The invariant holds along every run. -/
theorem inv_run (s : Sys) (ops : List Op) (hs : Inv s) : Inv (run s ops) := by
  induction ops generalizing s with
  | nil => exact hs
  | cons op ops ih => exact ih _ (inv_step s op hs)

/-! Claim theorems. -/

/-- C5: for every sequence of start/stop/cleanup operations, at most one
bound listener exists at any time (every reachable state has at most one
bound socket); in particular, start() called twice without an intervening
stop() binds exactly one listener (the trace holds a single bind event and
the bound set is exactly the first handle), and the second start() returns
normally with the Server-is-already-running signal as a no-op rather than
an error. -/
theorem c5_at_most_one_listener :
    (∀ (b : Bool) (ops : List Op),
        ((run (initSys b) ops).bound).length ≤ 1) ∧
    (run (initSys false) [.start, .start]).bound = [0] ∧
    (run (initSys false) [.start, .start]).events =
      [.bind 0, .logAlreadyRunning] ∧
    (handleStartServer (run (initSys false) [.start])).2 = .alreadyRunning := by
  exact ⟨fun b ops => (inv_run _ ops (inv_initSys b)).1,
    by decide, by decide, by decide⟩

/-- C7: the sequence start(); stop(); start() succeeds at both start()
calls (outcomes are started, stopped, started) and produces two
independent listener instances, distinct handles 0 and 1, with no leak:
the final state has only handle 1 bound, and the trace shows the close of
handle 0 completing before handle 1 is bound. -/
theorem c7_start_stop_start :
    run (initSys false) [.start, .stop, .start] =
      { server := some 1, nextId := 2, bound := [1], portBusy := false,
        events := [.bind 0, .close 0, .bind 1] } ∧
    (handleStartServer (initSys false)).2 = .started ∧
    (handleStopServer (run (initSys false) [.start])).2 = .stopped ∧
    (handleStartServer (run (initSys false) [.start, .stop])).2 = .started := by
  exact ⟨by decide, by decide, by decide, by decide⟩

/-- C8: stop() called while the cell is unset returns immediately with
the Server-is-not-running signal and changes nothing but the console
trace: no close (socket) operation is performed and the state stays
Stopped (the cell remains unset, the bound set is untouched). -/
theorem c8_stop_when_stopped_noop (s : Sys) (h : s.server = none) :
    handleStopServer s =
      ({ s with events := s.events ++ [.logNotRunning] }, .notRunning) := by
  simp [handleStopServer, h]

/-- Witness for C8 at the initial state. -/
theorem c8_witness :
    (initSys false).server = none ∧
    handleStopServer (initSys false) =
      ({ initSys false with events := [.logNotRunning] }, .notRunning) :=
  ⟨rfl, c8_stop_when_stopped_noop (initSys false) rfl⟩

/-- C3 counterexample: after start(); cleanup() the module cell still
holds the handle — isServerRunning() reports true, so cleanup() did not
transition the state to Stopped; and a second cleanup() performs another
close socket operation on the same handle (the trace gains a second close
event), so it is not a no-op. -/
theorem c3_counterexample :
    isServerRunning (run (initSys false) [.start, .clean]) = true ∧
    (run (initSys false) [.start, .clean, .clean]).events =
      [.bind 0, .close 0, .close 0] := by
  exact ⟨by decide, by decide⟩

/-- C3 (amended): cleanup() invoked while the cell is set closes the
listener socket (the handle is erased from the bound set, a close event is
recorded) but leaves the cell itself untouched, so the observable state
does not become Stopped and a later cleanup() re-issues a close on the
already-closed handle; cleanup() invoked while the cell is unset is a
complete no-op; and cleanup() is a total function of the state — the
close callback error on an already-closed handle is ignored, so cleanup
never throws. -/
theorem c3_cleanup_closes_but_cell_persists (s : Sys) :
    (∀ h, s.server = some h →
        cleanup s = { s with bound := s.bound.erase h,
                             events := s.events ++ [.close h] }) ∧
    (s.server = none → cleanup s = s) ∧
    (cleanup s).server = s.server := by
  refine ⟨?_, ?_, ?_⟩
  · intro h hh
    simp [cleanup, hh, stopServer]
  · intro hh
    simp [cleanup, hh]
  · cases hh : s.server with
    | none => simp [cleanup, hh]
    | some h => simp [cleanup, hh, stopServer]

/-- Witness for C3 (amended) on a running state. -/
theorem c3_witness :
    cleanup { server := some 0, nextId := 1, bound := [0], portBusy := false,
              events := [.bind 0] } =
      { server := some 0, nextId := 1, bound := [], portBusy := false,
        events := [.bind 0, .close 0] } :=
  (c3_cleanup_closes_but_cell_persists _).1 0 rfl

/-- C4 counterexample: with the configured port already held by another
process, handleStartServer() does not return with a reported error — the
awaited startServer() promise never settles (there is no error path), so
the call never returns at all. The cell does remain unset. -/
theorem c4_counterexample :
    handleStartServer (initSys true) =
      ({ initSys true with events := [.bindFailed] }, .neverReturns) ∧
    StartOutcome.neverReturns ≠ StartOutcome.started := by
  exact ⟨by decide, by decide⟩

/-- C4 (amended): if binding the listener port fails, start() never
returns and reports no error — the promise returned by startServer() has
no reject path and the listening callback never fires; the controller
cell remains unset (the state stays Stopped, no partial Running state is
observable), but the failure is not surfaced to the caller. -/
theorem c4_bind_failure_never_returns (s : Sys)
    (hcell : s.server = none) (hbusy : s.portBusy = true) :
    handleStartServer s =
      ({ s with events := s.events ++ [.bindFailed] }, .neverReturns) ∧
    (handleStartServer s).1.server = none := by
  have h1 : handleStartServer s =
      ({ s with events := s.events ++ [.bindFailed] }, .neverReturns) := by
    simp [handleStartServer, hcell, startServer, hbusy]
  exact ⟨h1, by rw [h1]; exact hcell⟩

/-- Witness for C4 (amended) at the initial state with the port busy. -/
theorem c4_witness :
    (initSys true).server = none ∧ (initSys true).portBusy = true ∧
    handleStartServer (initSys true) =
      ({ initSys true with events := [.bindFailed] }, .neverReturns) :=
  ⟨rfl, rfl, (c4_bind_failure_never_returns (initSys true) rfl rfl).1⟩

/-- C6: for every request whose method is POST, PUT or PATCH, a non-empty
configured API key makes the outbound request carry an Authorization
header exactly equal to Bearer followed by the key, and an empty or
absent key leaves the outbound request without any Authorization
header. -/
theorem c6_auth_header_on_write_methods (env : Env) (m : Method)
    (url : String) (data : Option Json) (params : List (String × String))
    (_hm : m ∈ [Method.post, Method.put, Method.patch]) :
    (∀ k, env.apiKey = some k → k ≠ "" →
        getHeader (buildRequest env m url data params).headers
          "Authorization" = some ("Bearer " ++ k)) ∧
    (envTruthy env.apiKey = false →
        getHeader (buildRequest env m url data params).headers
          "Authorization" = none) := by
  constructor
  · intro k hk hne
    have h1 : envTruthy env.apiKey = true := by
      rw [hk]; exact envTruthy_some hne
    show getHeader (authInterceptor env (mkConfig env m url data params)).headers
      "Authorization" = some ("Bearer " ++ k)
    rw [authInterceptor, if_pos h1, hk]
    exact getHeader_setHeader_auth ("Bearer " ++ k)
  · intro h0
    show getHeader (authInterceptor env (mkConfig env m url data params)).headers
      "Authorization" = none
    rw [authInterceptor, if_neg (by rw [h0]; exact Bool.false_ne_true)]
    exact getHeader_defaultHeaders_auth

/-- Witness for C6: with a configured key, a POST carries the header;
with an absent key it does not. -/
theorem c6_witness :
    Method.post ∈ [Method.post, Method.put, Method.patch] ∧
    getHeader (buildRequest
        { apiBaseUrl := some "https://api.example.com", apiKey := some "secret" }
        Method.post "/users" (some (Json.obj [])) []).headers "Authorization"
      = some ("Bearer " ++ "secret") ∧
    getHeader (buildRequest
        { apiBaseUrl := some "https://api.example.com", apiKey := none }
        Method.post "/users" (some (Json.obj [])) []).headers "Authorization"
      = none := by
  refine ⟨by decide, ?_, ?_⟩
  · exact (c6_auth_header_on_write_methods _ Method.post "/users"
      (some (Json.obj [])) [] (by decide)).1 "secret" rfl (by decide)
  · exact (c6_auth_header_on_write_methods _ Method.post "/users"
      (some (Json.obj [])) [] (by decide)).2 rfl

/-- C10: with a non-empty configured API key, the Bearer Authorization
header is attached to the outbound request of every method — GET and
DELETE included — and the headers produced are the same whatever the
method, because the single request interceptor applies uniformly to every
call through the configured instance. -/
theorem c10_auth_header_all_methods (env : Env) (m : Method) (url : String)
    (data : Option Json) (params : List (String × String)) (k : String)
    (hk : env.apiKey = some k) (hne : k ≠ "") :
    getHeader (buildRequest env m url data params).headers "Authorization"
      = some ("Bearer " ++ k) ∧
    (buildRequest env m url data params).headers
      = (buildRequest env Method.get url data params).headers := by
  have h1 : envTruthy env.apiKey = true := by
    rw [hk]; exact envTruthy_some hne
  constructor
  · show getHeader (authInterceptor env (mkConfig env m url data params)).headers
      "Authorization" = some ("Bearer " ++ k)
    rw [authInterceptor, if_pos h1, hk]
    exact getHeader_setHeader_auth ("Bearer " ++ k)
  · show (authInterceptor env (mkConfig env m url data params)).headers
      = (authInterceptor env (mkConfig env Method.get url data params)).headers
    rw [authInterceptor, authInterceptor, if_pos h1, if_pos h1]
    rfl

/-- Witness for C10 on a GET and a DELETE request. -/
theorem c10_witness :
    getHeader (buildRequest
        { apiBaseUrl := some "https://api.example.com", apiKey := some "secret" }
        Method.get "/users" none [("page", "1")]).headers "Authorization"
      = some ("Bearer " ++ "secret") ∧
    getHeader (buildRequest
        { apiBaseUrl := some "https://api.example.com", apiKey := some "secret" }
        Method.delete "/users/7" none []).headers "Authorization"
      = some ("Bearer " ++ "secret") :=
  ⟨(c10_auth_header_all_methods _ Method.get "/users" none [("page", "1")]
      "secret" rfl (by decide)).1,
   (c10_auth_header_all_methods _ Method.delete "/users/7" none []
      "secret" rfl (by decide)).1⟩

/-- C2: for every stubbed transport answering a non-2xx status, the call
does not succeed: it settles in the rejection channel with the typed
failure carrying the status code and the decoded response body (the
HttpError case — a response was received), and the very same failure
value is written to the error channel by the response interceptor before
being re-raised to the caller, so it is never swallowed after logging. -/
theorem c2_non2xx_failure_logged_and_delivered (env : Env)
    (transport : WireRequest → Transport) (m : Method) (url : String)
    (data : Option Json) (params : List (String × String))
    (status : Nat) (body : Json)
    (ht : ∀ req, transport req = .respond status body)
    (hs : validateStatus status = false) :
    apiRequest env transport m url data params =
      ([{ status := some status,
          payload := logPayload (httpFailure status body) }],
       .error (httpFailure status body)) := by
  simp only [apiRequest, ht, dispatch, hs, responseInterceptor]
  rfl

/-- Witness for C2: the 404 example of the spec — a stubbed transport
returning status 404 with body containing the error field "not found"
yields the failure with status 404 and that body, both logged and
delivered; the body's error field is the string "not found". -/
theorem c2_witness :
    validateStatus 404 = false ∧
    Api.get { apiBaseUrl := some "https://api.example.com", apiKey := none }
        (fun _ => .respond 404 (Json.obj [("error", Json.str "not found")]))
        "/things" [] =
      ([{ status := some 404,
          payload := .jsonVal (Json.obj [("error", Json.str "not found")]) }],
       .error { status := some 404,
                data := some (Json.obj [("error", Json.str "not found")]),
                message := "Request failed with status code 404" }) ∧
    (Json.obj [("error", Json.str "not found")]).getField "error"
      = some (Json.str "not found") := by
  refine ⟨rfl, ?_, rfl⟩
  exact c2_non2xx_failure_logged_and_delivered _ _ Method.get "/things" none []
    404 (Json.obj [("error", Json.str "not found")]) (fun _ => rfl) rfl

/-- C1 counterexample: on a stubbed transport answering 404, the promise
returned by the client does not fulfil with a value — it rejects, because
the response interceptor logs and then re-throws the error — so the
failure reaches the caller as a raise, not as a returned RequestOutcome
value; the error-channel log is written nonetheless (one entry). -/
theorem c1_counterexample :
    fulfilled (Api.get
        { apiBaseUrl := some "https://api.example.com", apiKey := none }
        (fun _ => .respond 404 (Json.obj [("error", Json.str "not found")]))
        "/things" []).2 = false ∧
    (Api.get { apiBaseUrl := some "https://api.example.com", apiKey := none }
        (fun _ => .respond 404 (Json.obj [("error", Json.str "not found")]))
        "/things" []).1.length = 1 :=
  ⟨rfl, rfl⟩

/-- C1 (amended): for every failed call (non-2xx response, network error,
timeout), the client writes the failure to the error channel and
re-raises the same typed error to the caller — the call never silently
succeeds and the failure is never swallowed after logging — and the
interactive request handler catches the raise and turns it into the
Request-failed report, so the process does not crash; but the client does
not convert the failure into a value returned by a fulfilled promise. -/
theorem c1_failures_logged_and_reraised (t : Transport)
    (hfail : fulfilled (dispatch t) = false)
    (env : Env) (m : Method) (url : String) (data : Option Json)
    (params : List (String × String)) (body : Json) :
    ∃ e : AxiosError,
      dispatch t = .error e ∧
      apiRequest env (fun _ => t) m url data params =
        ([{ status := e.status, payload := logPayload e }], .error e) ∧
      makeRequest env (fun _ => t) m url body =
        ([{ status := e.status, payload := logPayload e }],
         .failed e.message) := by
  cases hd : dispatch t with
  | ok r =>
    rw [hd] at hfail
    exact absurd hfail (by simp [fulfilled])
  | error e =>
    refine ⟨e, rfl, ?_, ?_⟩
    · simp only [apiRequest, hd, responseInterceptor]
    · cases m <;>
        simp only [makeRequest, Api.get, Api.post, Api.put, Api.patch,
          Api.del, apiRequest, hd, responseInterceptor]

/-- Witness for C1 (amended) on a connection-refused transport failure. -/
theorem c1_witness :
    fulfilled (dispatch (.netError "connect ECONNREFUSED")) = false ∧
    (∃ e : AxiosError,
      dispatch (.netError "connect ECONNREFUSED") = .error e ∧
      apiRequest
        { apiBaseUrl := some "https://api.example.com", apiKey := none }
        (fun _ => .netError "connect ECONNREFUSED") Method.get "/things"
        none [] =
        ([{ status := e.status, payload := logPayload e }], .error e) ∧
      makeRequest
        { apiBaseUrl := some "https://api.example.com", apiKey := none }
        (fun _ => .netError "connect ECONNREFUSED") Method.get "/things"
        Json.null =
        ([{ status := e.status, payload := logPayload e }],
         .failed e.message)) :=
  ⟨rfl, c1_failures_logged_and_reraised (.netError "connect ECONNREFUSED")
    rfl _ Method.get "/things" none [] Json.null⟩

/-- C9 counterexample: two stubbed transports answering the same body
under the distinct 2xx status codes 200 and 201 produce identical
results, and that result carries just the decoded body — so the value
returned on success cannot contain the response status code, contrary to
Success(statusCode, decodedBody). -/
theorem c9_counterexample :
    Api.get { apiBaseUrl := some "https://api.example.com", apiKey := none }
        (fun _ => .respond 200 (Json.obj [("id", Json.num 1)])) "/things" [] =
      Api.get { apiBaseUrl := some "https://api.example.com", apiKey := none }
        (fun _ => .respond 201 (Json.obj [("id", Json.num 1)])) "/things" [] ∧
    (Api.get { apiBaseUrl := some "https://api.example.com", apiKey := none }
        (fun _ => .respond 200 (Json.obj [("id", Json.num 1)])) "/things"
        []).2 = .ok (Json.obj [("id", Json.num 1)]) :=
  ⟨rfl, rfl⟩

/-- C9 (amended): for every descriptor whose execution receives a 2xx
response, the call fulfils with exactly the JSON-decoded response body
(the templates all return response.data); the response status code is not
part of the returned value. Nothing is logged on success. -/
theorem c9_success_returns_body_only (env : Env)
    (transport : WireRequest → Transport) (m : Method) (url : String)
    (data : Option Json) (params : List (String × String))
    (status : Nat) (body : Json)
    (ht : transport (buildRequest env m url data params)
        = .respond status body)
    (hs : validateStatus status = true) :
    apiRequest env transport m url data params = ([], .ok body) := by
  simp only [apiRequest, ht, dispatch, hs, if_true, responseInterceptor]

/-- Witness for C9 (amended) on a 200 response. -/
theorem c9_witness :
    validateStatus 200 = true ∧
    apiRequest { apiBaseUrl := some "https://api.example.com", apiKey := none }
        (fun _ => .respond 200 (Json.obj [("id", Json.num 1)]))
        Method.get "/things" none [] =
      ([], .ok (Json.obj [("id", Json.num 1)])) :=
  ⟨rfl, c9_success_returns_body_only _ _ Method.get "/things" none []
    200 (Json.obj [("id", Json.num 1)]) rfl rfl⟩

end WebApiCli
